import Mathlib

/-!
Verification of the reactive state store (`SharedStoreService`) and its
startup hook (`init_shared_store` in `app.module.ts`) of the mmpm web
front-end.

The store owns three rxjs `BehaviorSubject`s (packages, database info,
upgradable details) exposed as observables, and one refresh operation
`load()` that fires `getPackages()`, then — inside that promise's
fulfillment handler — `get_("db/info")` and `get_("db/upgradable")`,
publishing each payload into its channel when the response code is 200
and logging the message otherwise.

The embedding below models one `load()` call as a deterministic event
trace, parametrised by an environment giving the outcome of each of the
three fetches (fulfilled with a response, rejected, or never settling)
and the settle order of the two nested fetches.  The store state is the
triple of subjects; publishes go through `BehaviorSubject.next`, so
subscriber notification lists are tracked as well.
-/

/-- Modelled from the spec: `MagicMirrorPackage` lives in
`@/models/magicmirror-package`, which is not part of the two source
files; the spec describes a package record with identity (name),
category, repository URL, version markers and an installation flag.
The store never inspects these fields. -/
structure MagicMirrorPackage where
  name : String
  category : String
  repository : String
  version : String
  remoteVersion : String
  isInstalled : Bool
  deriving DecidableEq

/-- Modelled from the spec: `DatabaseInfo` lives in
`@/models/database-details`, which is not part of the two source files;
the spec describes a small record with a last-refresh timestamp and
item counts, whose default value is the empty record `\x7b\x7d` (all fields
absent).  The store treats it as an opaque payload. -/
structure DatabaseInfo where
  lastUpdate : Option String := none
  categoryCount : Option Nat := none
  packageCount : Option Nat := none
  deriving DecidableEq

/-- From the source: the default `UpgradableDetails` value constructed in
`SharedStoreService` is `\x7b mmpm: false, MagicMirror: false, packages: [] \x7d`;
the field shapes themselves are modelled from the spec (two booleans and
a sequence of packages), since `@/models/upgradable-details` is not part
of the two source files. -/
structure UpgradableDetails where
  mmpm : Bool
  MagicMirror : Bool
  packages : List MagicMirrorPackage
  deriving DecidableEq

/-- The possible runtime values flowing through `response.message` and
the three channels.  In the TypeScript source `message` has type `any`
and is pushed into a channel by an unchecked cast, so the embedding uses
one union of the three payload shapes plus strings (failure messages and
log lines). -/
inductive Value where
  | packages (ps : List MagicMirrorPackage)
  | dbInfo (d : DatabaseInfo)
  | upgradable (u : UpgradableDetails)
  | str (s : String)
  deriving DecidableEq

/-- Modelled from the spec: `APIResponse` lives in
`@/services/api/base-api`, which is not part of the two source files;
per the spec it carries an integer status code (200 = success) and a
`message` payload. -/
structure APIResponse where
  code : Int
  message : Value
  deriving DecidableEq

/-- A notification delivered to an rxjs subscriber: a value, an error,
or completion. -/
inductive Notification (α : Type) where
  | next (v : α)
  | error (e : String)
  | complete
  deriving DecidableEq

/-- One subscriber of a subject, recorded as the list of notifications
it has received so far, oldest first. -/
structure Subscriber (α : Type) where
  received : List (Notification α)
  deriving DecidableEq

/-- Modelled from the spec: rxjs `BehaviorSubject` is a library type not
part of the two source files.  Per the spec's observable-channel
semantics it holds a current value, delivers it to every subscriber
immediately upon subscription, and notifies all current subscribers on
each subsequent update. -/
structure BehaviorSubject (α : Type) where
  value : α
  subscribers : List (Subscriber α)
  deriving DecidableEq

/-- Subscribing appends a fresh subscriber that immediately receives the
current value. -/
def BehaviorSubject.subscribe {α : Type} (s : BehaviorSubject α) : BehaviorSubject α :=
  { s with subscribers := s.subscribers ++ [⟨[Notification.next s.value]⟩] }

/-- Publishing a value replaces the current value and notifies every
current subscriber. -/
def BehaviorSubject.next {α : Type} (s : BehaviorSubject α) (v : α) : BehaviorSubject α :=
  { value := v
    subscribers := s.subscribers.map fun sub => ⟨sub.received ++ [Notification.next v]⟩ }

/-- Erroring a subject notifies every subscriber with the error.  The
store never invokes this. -/
def BehaviorSubject.error {α : Type} (s : BehaviorSubject α) (e : String) : BehaviorSubject α :=
  { s with subscribers := s.subscribers.map fun sub => ⟨sub.received ++ [Notification.error e]⟩ }

/-- Completing a subject notifies every subscriber.  The store never
invokes this. -/
def BehaviorSubject.complete {α : Type} (s : BehaviorSubject α) : BehaviorSubject α :=
  { s with subscribers := s.subscribers.map fun sub => ⟨sub.received ++ [Notification.complete]⟩ }

/-- The state of `SharedStoreService`: its three `BehaviorSubject`
fields.  The public observables `packages`, `dbInfo` and `upgradable`
are `asObservable()` views of these subjects. -/
structure SharedStoreService where
  packagesSubj : BehaviorSubject Value
  dbInfoSubj : BehaviorSubject Value
  upgradeableSubj : BehaviorSubject Value
  deriving DecidableEq

/-- The store as constructed: each subject is created with its default
value (`[]`, `\x7b\x7d`, `\x7b mmpm: false, MagicMirror: false, packages: [] \x7d`)
and no subscribers. -/
def SharedStoreService.construct : SharedStoreService :=
  { packagesSubj := ⟨Value.packages [], []⟩
    dbInfoSubj := ⟨Value.dbInfo {}, []⟩
    upgradeableSubj := ⟨Value.upgradable ⟨false, false, []⟩, []⟩ }

/-- The three fetches issued by one `load()` call, also used to index
the three channels. -/
inductive Fetch where
  | packages
  | dbInfo
  | upgradable
  deriving DecidableEq

/-- The subject backing a given channel. -/
def SharedStoreService.chanSubj (s : SharedStoreService) : Fetch → BehaviorSubject Value
  | Fetch.packages => s.packagesSubj
  | Fetch.dbInfo => s.dbInfoSubj
  | Fetch.upgradable => s.upgradeableSubj

/-- The current value held by a channel. -/
def SharedStoreService.chanValue (s : SharedStoreService) (f : Fetch) : Value :=
  (s.chanSubj f).value

/-- The outcome of one remote fetch: the promise fulfills with a
response, rejects (transport failure), or never settles. -/
inductive Outcome where
  | fulfilled (r : APIResponse)
  | rejected
  | pending
  deriving DecidableEq

/-- Whether an outcome is a fulfillment. -/
def Outcome.isFulfilled : Outcome → Bool
  | Outcome.fulfilled _ => true
  | _ => false

/-- The payload a fetch with this outcome would publish: its message
when it fulfills with code 200, nothing otherwise. -/
def Outcome.successValue : Outcome → Option Value
  | Outcome.fulfilled r => if r.code = 200 then some r.message else none
  | _ => none

/-- One environment for a single `load()` call: the outcome of each of
the three fetches, plus which of the two nested fetches settles first
(their completions may arrive in either order). -/
structure Env where
  packagesRes : Outcome
  dbInfoRes : Outcome
  upgradableRes : Outcome
  dbInfoFirst : Bool
  deriving DecidableEq

/-- The outcome the environment assigns to a fetch. -/
def Env.outcomeOf (env : Env) : Fetch → Outcome
  | Fetch.packages => env.packagesRes
  | Fetch.dbInfo => env.dbInfoRes
  | Fetch.upgradable => env.upgradableRes

/-- Observable events of one `load()` call: a fetch being initiated,
settling with a response, rejecting, a channel publish, and a console
log line. -/
inductive Event where
  | initiate (f : Fetch)
  | settle (f : Fetch) (r : APIResponse)
  | reject (f : Fetch)
  | publish (f : Fetch) (v : Value)
  | log (v : Value)
  deriving DecidableEq

/-- The body of a `.then` fulfillment handler for the two nested
fetches: publish the message on code 200, log it otherwise. -/
def fetchHandler (f : Fetch) (r : APIResponse) : List Event :=
  if r.code = 200 then [Event.publish f r.message] else [Event.log r.message]

/-- The events contributed by a nested fetch once `load()` has initiated
it: a settle followed by its handler, a bare rejection (no handler is
attached for rejections), or nothing when it never settles. -/
def settledEvents (f : Fetch) (o : Outcome) : List Event :=
  match o with
  | Outcome.fulfilled r => Event.settle f r :: fetchHandler f r
  | Outcome.rejected => [Event.reject f]
  | Outcome.pending => []

/-- The event trace of one `load()` call under a given environment,
translated from `SharedStoreService.load`: log the banner, initiate
`getPackages()`; only if that promise fulfills does its handler run,
publishing or logging, then initiating `db/info` and `db/upgradable`,
which then settle in the order the environment dictates. -/
def loadTrace (env : Env) : List Event :=
  Event.log (Value.str ("Getting packages for data store")) ::
  Event.initiate Fetch.packages ::
  match env.packagesRes with
  | Outcome.pending => []
  | Outcome.rejected => [Event.reject Fetch.packages]
  | Outcome.fulfilled r =>
      (Event.settle Fetch.packages r ::
        (if r.code = 200 then
          [Event.publish Fetch.packages r.message,
           Event.log (Value.str ("Retrieved packages"))]
         else
          [Event.log r.message])) ++
      Event.initiate Fetch.dbInfo ::
      Event.initiate Fetch.upgradable ::
      (if env.dbInfoFirst then
        settledEvents Fetch.dbInfo env.dbInfoRes ++
          settledEvents Fetch.upgradable env.upgradableRes
       else
        settledEvents Fetch.upgradable env.upgradableRes ++
          settledEvents Fetch.dbInfo env.dbInfoRes)

/-- How one event acts on the store: a publish pushes the value through
the corresponding subject; every other event leaves the store untouched. -/
def SharedStoreService.applyEvent (s : SharedStoreService) : Event → SharedStoreService
  | Event.publish Fetch.packages v => { s with packagesSubj := s.packagesSubj.next v }
  | Event.publish Fetch.dbInfo v => { s with dbInfoSubj := s.dbInfoSubj.next v }
  | Event.publish Fetch.upgradable v => { s with upgradeableSubj := s.upgradeableSubj.next v }
  | _ => s

/-- One `load()` call: the final store state after all events of the
refresh have been applied, together with the event trace.  Note the
method itself returns `void` in the source; the trace is the behaviour
of the background refresh it starts. -/
def SharedStoreService.load (s : SharedStoreService) (env : Env) :
    SharedStoreService × List Event :=
  ((loadTrace env).foldl SharedStoreService.applyEvent s, loadTrace env)

/-- A sequence of `load()` calls, each running to quiescence under its
own environment. -/
def SharedStoreService.runLoads (s : SharedStoreService) : List Env → SharedStoreService
  | [] => s
  | env :: rest => SharedStoreService.runLoads (s.load env).1 rest

/-- The fetches a trace initiates, in order. -/
def initiatedFetches (tr : List Event) : List Fetch :=
  tr.filterMap fun e =>
    match e with
    | Event.initiate f => some f
    | _ => none

/-- The value an event publishes to channel `f`, if any. -/
def publishValue (f : Fetch) : Event → Option Value
  | Event.publish g v => if g = f then some v else none
  | _ => none

/-- The last value a trace publishes to channel `f`, if any. -/
def lastPublished (f : Fetch) : List Event → Option Value
  | [] => none
  | e :: tr => (lastPublished f tr).orElse fun _ => publishValue f e

/-- The value one `load()` call publishes to a channel, read off the
environment: the packages channel needs its own fetch to fulfill with
code 200; the two nested channels additionally need the packages fetch
to have fulfilled at all, since their fetches are only initiated inside
its fulfillment handler. -/
def envPublish (env : Env) : Fetch → Option Value
  | Fetch.packages => env.packagesRes.successValue
  | Fetch.dbInfo =>
      match env.packagesRes with
      | Outcome.fulfilled _ => env.dbInfoRes.successValue
      | _ => none
  | Fetch.upgradable =>
      match env.packagesRes with
      | Outcome.fulfilled _ => env.upgradableRes.successValue
      | _ => none

/-- From `app.module.ts`: the `APP_INITIALIZER` factory
`init_shared_store` returns a hook whose body is one method call on the
injected `SharedStoreService`; this is the member name it invokes. -/
def init_shared_store_calledMember : String := "get_packages"

/-- The method names `SharedStoreService` declares. -/
def SharedStoreService.methodNames : List String := ["load"]

/-- The public observable property names `SharedStoreService` declares. -/
def SharedStoreService.propertyNames : List String := ["packages", "dbInfo", "upgradable"]

/-! ### Trace and state lemmas -/

theorem lastPublished_nil (f : Fetch) : lastPublished f [] = none := rfl

theorem lastPublished_cons (f : Fetch) (e : Event) (tr : List Event) :
    lastPublished f (e :: tr) = (lastPublished f tr).orElse fun _ => publishValue f e := rfl

theorem lastPublished_append (f : Fetch) (a b : List Event) :
    lastPublished f (a ++ b) = (lastPublished f b).orElse fun _ => lastPublished f a := by
  induction a with
  | nil =>
      cases h : lastPublished f b <;> simp [lastPublished_nil, Option.orElse, h]
  | cons e a ih =>
      rw [List.cons_append, lastPublished_cons, ih, lastPublished_cons]
      cases h1 : lastPublished f b <;> cases h2 : lastPublished f a <;>
        simp [Option.orElse]

theorem chanValue_applyEvent (s : SharedStoreService) (e : Event) (f : Fetch) :
    (s.applyEvent e).chanValue f = (publishValue f e).getD (s.chanValue f) := by
  cases e with
  | publish g v =>
      cases g <;> cases f <;>
        simp [SharedStoreService.applyEvent, SharedStoreService.chanValue,
          SharedStoreService.chanSubj, publishValue, BehaviorSubject.next]
  | initiate g => rfl
  | settle g r => rfl
  | reject g => rfl
  | log v => rfl

theorem chanValue_foldl (tr : List Event) (s : SharedStoreService) (f : Fetch) :
    (tr.foldl SharedStoreService.applyEvent s).chanValue f
      = (lastPublished f tr).getD (s.chanValue f) := by
  induction tr generalizing s with
  | nil => rfl
  | cons e tr ih =>
      rw [List.foldl_cons, ih, lastPublished_cons]
      cases h1 : lastPublished f tr <;>
        simp [Option.orElse, chanValue_applyEvent]

theorem lastPublished_settledEvents (f g : Fetch) (o : Outcome) :
    lastPublished f (settledEvents g o)
      = if g = f then o.successValue else none := by
  cases o with
  | fulfilled r =>
      by_cases hc : r.code = 200 <;> by_cases hg : g = f <;>
        simp [settledEvents, fetchHandler, lastPublished, publishValue,
          Outcome.successValue, hc, hg, Option.orElse]
  | rejected =>
      by_cases hg : g = f <;>
        simp [settledEvents, lastPublished, publishValue, Outcome.successValue, hg]
  | pending =>
      by_cases hg : g = f <;>
        simp [settledEvents, lastPublished, Outcome.successValue, hg]

theorem lastPublished_loadTrace (env : Env) (f : Fetch) :
    lastPublished f (loadTrace env) = envPublish env f := by
  obtain ⟨po, dbo, uo, first⟩ := env
  cases po with
  | pending =>
      cases f <;>
        simp [loadTrace, envPublish, lastPublished, publishValue,
          Outcome.successValue, Option.orElse]
  | rejected =>
      cases f <;>
        simp [loadTrace, envPublish, lastPublished, publishValue,
          Outcome.successValue, Option.orElse]
  | fulfilled r =>
      cases f with
      | packages =>
          by_cases hc : r.code = 200 <;> cases first <;>
            simp [loadTrace, envPublish, lastPublished_append, lastPublished_settledEvents,
              lastPublished, publishValue, Outcome.successValue, hc, Option.orElse]
      | dbInfo =>
          by_cases hc : r.code = 200 <;> cases first <;> cases h : dbo.successValue <;>
            simp [loadTrace, envPublish, lastPublished_append, lastPublished_settledEvents,
              lastPublished, publishValue, hc, h, Option.orElse]
      | upgradable =>
          by_cases hc : r.code = 200 <;> cases first <;> cases h : uo.successValue <;>
            simp [loadTrace, envPublish, lastPublished_append, lastPublished_settledEvents,
              lastPublished, publishValue, hc, h, Option.orElse]

theorem chanValue_load (s : SharedStoreService) (env : Env) (f : Fetch) :
    (s.load env).1.chanValue f = (envPublish env f).getD (s.chanValue f) := by
  rw [SharedStoreService.load, chanValue_foldl, lastPublished_loadTrace]

theorem publish_mem_settledEvents (f g : Fetch) (v : Value) (o : Outcome) :
    Event.publish f v ∈ settledEvents g o ↔ (g = f ∧ o.successValue = some v) := by
  cases o with
  | fulfilled r =>
      by_cases hc : r.code = 200 <;>
        simp [settledEvents, fetchHandler, Outcome.successValue, hc, eq_comm, and_comm]
  | rejected => simp [settledEvents, Outcome.successValue]
  | pending => simp [settledEvents, Outcome.successValue]

theorem publish_mem_loadTrace (env : Env) (f : Fetch) (v : Value) :
    Event.publish f v ∈ loadTrace env ↔ envPublish env f = some v := by
  obtain ⟨po, dbo, uo, first⟩ := env
  cases po with
  | pending => cases f <;> simp [loadTrace, envPublish, Outcome.successValue]
  | rejected => cases f <;> simp [loadTrace, envPublish, Outcome.successValue]
  | fulfilled r =>
      cases f with
      | packages =>
          by_cases hc : r.code = 200 <;> cases first <;>
            simp [loadTrace, envPublish, publish_mem_settledEvents,
              Outcome.successValue, hc, eq_comm]
      | dbInfo =>
          by_cases hc : r.code = 200 <;> cases first <;>
            simp [loadTrace, envPublish, publish_mem_settledEvents, hc]
      | upgradable =>
          by_cases hc : r.code = 200 <;> cases first <;>
            simp [loadTrace, envPublish, publish_mem_settledEvents, hc]

theorem settle_mem_settledEvents (f g : Fetch) (r : APIResponse) (o : Outcome) :
    Event.settle f r ∈ settledEvents g o ↔ (g = f ∧ o = Outcome.fulfilled r) := by
  cases o with
  | fulfilled q =>
      by_cases hc : q.code = 200 <;>
        simp [settledEvents, fetchHandler, hc, eq_comm, and_comm]
  | rejected => simp [settledEvents]
  | pending => simp [settledEvents]

theorem settle_mem_loadTrace (env : Env) (f : Fetch) (r : APIResponse) :
    Event.settle f r ∈ loadTrace env
      ↔ (env.outcomeOf f = Outcome.fulfilled r
          ∧ (f = Fetch.packages ∨ env.packagesRes.isFulfilled = true)) := by
  obtain ⟨po, dbo, uo, first⟩ := env
  cases po with
  | pending =>
      cases f <;> simp [loadTrace, Env.outcomeOf, Outcome.isFulfilled]
  | rejected =>
      cases f <;> simp [loadTrace, Env.outcomeOf, Outcome.isFulfilled]
  | fulfilled q =>
      cases f with
      | packages =>
          by_cases hc : q.code = 200 <;> cases first <;>
            simp [loadTrace, settle_mem_settledEvents, Env.outcomeOf,
              Outcome.isFulfilled, hc, eq_comm]
      | dbInfo =>
          by_cases hc : q.code = 200 <;> cases first <;>
            simp [loadTrace, settle_mem_settledEvents, Env.outcomeOf,
              Outcome.isFulfilled, hc]
      | upgradable =>
          by_cases hc : q.code = 200 <;> cases first <;>
            simp [loadTrace, settle_mem_settledEvents, Env.outcomeOf,
              Outcome.isFulfilled, hc]

theorem log_mem_loadTrace_of_failure (env : Env) (f : Fetch) (r : APIResponse)
    (hs : Event.settle f r ∈ loadTrace env) (hc : ¬ r.code = 200) :
    Event.log r.message ∈ loadTrace env := by
  rcases (settle_mem_loadTrace env f r).1 hs with ⟨ho, hp⟩
  obtain ⟨po, dbo, uo, first⟩ := env
  cases f with
  | packages =>
      rw [show (Env.outcomeOf ⟨po, dbo, uo, first⟩ Fetch.packages) = po from rfl] at ho
      subst ho
      cases first <;> simp [loadTrace, hc]
  | dbInfo =>
      rw [show (Env.outcomeOf ⟨po, dbo, uo, first⟩ Fetch.dbInfo) = dbo from rfl] at ho
      subst ho
      cases po with
      | pending => simp [Outcome.isFulfilled] at hp
      | rejected => simp [Outcome.isFulfilled] at hp
      | fulfilled q =>
          cases first <;> simp [loadTrace, settledEvents, fetchHandler, hc]
  | upgradable =>
      rw [show (Env.outcomeOf ⟨po, dbo, uo, first⟩ Fetch.upgradable) = uo from rfl] at ho
      subst ho
      cases po with
      | pending => simp [Outcome.isFulfilled] at hp
      | rejected => simp [Outcome.isFulfilled] at hp
      | fulfilled q =>
          cases first <;> simp [loadTrace, settledEvents, fetchHandler, hc]

theorem initiateFetch_none_of_mem_settledEvents (g : Fetch) (o : Outcome) :
    ∀ e ∈ settledEvents g o,
      (match e with
        | Event.initiate f => some f
        | _ => none) = (none : Option Fetch) := by
  intro e he
  cases o with
  | fulfilled r =>
      by_cases hc : r.code = 200 <;> simp [settledEvents, fetchHandler, hc] at he <;>
        rcases he with he | he <;> subst he <;> rfl
  | rejected =>
      simp [settledEvents] at he
      subst he
      rfl
  | pending => simp [settledEvents] at he

theorem initiatedFetches_loadTrace (env : Env) :
    initiatedFetches (loadTrace env)
      = if env.packagesRes.isFulfilled then
          [Fetch.packages, Fetch.dbInfo, Fetch.upgradable]
        else
          [Fetch.packages] := by
  obtain ⟨po, dbo, uo, first⟩ := env
  cases po with
  | pending => simp [loadTrace, initiatedFetches, Outcome.isFulfilled]
  | rejected => simp [loadTrace, initiatedFetches, Outcome.isFulfilled]
  | fulfilled r =>
      by_cases hc : r.code = 200 <;> cases first <;>
        simp [loadTrace, initiatedFetches, Outcome.isFulfilled, hc, List.filterMap_append] <;>
        exact ⟨initiateFetch_none_of_mem_settledEvents _ _,
          initiateFetch_none_of_mem_settledEvents _ _⟩

/-! ### Subject and subscriber lemmas -/

theorem value_foldl_next (pubs : List Value) (t : BehaviorSubject Value) :
    (pubs.foldl BehaviorSubject.next t).value = pubs.getLastD t.value := by
  induction pubs generalizing t with
  | nil => rfl
  | cons a l ih =>
      rw [List.foldl_cons, ih, List.getLastD_cons]
      rfl

theorem subscribe_getLast (t : BehaviorSubject Value) :
    t.subscribe.subscribers.getLast? = some ⟨[Notification.next t.value]⟩ := by
  simp [BehaviorSubject.subscribe]

theorem next_notifies_all (t : BehaviorSubject Value) (w : Value) :
    ∀ sub ∈ (t.next w).subscribers,
      sub.received.getLast? = some (Notification.next w) := by
  intro sub h
  simp only [BehaviorSubject.next, List.mem_map] at h
  obtain ⟨y, _, rfl⟩ := h
  simp

/-- Whether a notification is a value delivery (`next`), as opposed to
an error or a completion. -/
def Notification.isNext {α : Type} : Notification α → Bool
  | Notification.next _ => true
  | _ => false

/-- A subscriber that has only ever received `next` notifications —
never an error, never a completion. -/
def Subscriber.onlyNext (sub : Subscriber Value) : Prop :=
  ∀ n ∈ sub.received, n.isNext = true

/-- Every subscriber of every one of the store's three channels has only
ever received `next` notifications. -/
def SharedStoreService.allNext (s : SharedStoreService) : Prop :=
  (∀ sub ∈ s.packagesSubj.subscribers, sub.onlyNext)
    ∧ (∀ sub ∈ s.dbInfoSubj.subscribers, sub.onlyNext)
    ∧ (∀ sub ∈ s.upgradeableSubj.subscribers, sub.onlyNext)

theorem onlyNext_of_next (t : BehaviorSubject Value) (v : Value)
    (h : ∀ sub ∈ t.subscribers, sub.onlyNext) :
    ∀ sub ∈ (t.next v).subscribers, sub.onlyNext := by
  intro sub hmem
  simp only [BehaviorSubject.next, List.mem_map] at hmem
  obtain ⟨y, hy, rfl⟩ := hmem
  intro n hn
  rcases List.mem_append.1 hn with hn | hn
  · exact h y hy n hn
  · rcases List.mem_singleton.1 hn with rfl
    rfl

theorem allNext_applyEvent (s : SharedStoreService) (e : Event)
    (h : s.allNext) : (s.applyEvent e).allNext := by
  obtain ⟨h1, h2, h3⟩ := h
  cases e with
  | publish g v =>
      cases g <;>
        exact ⟨by first | exact onlyNext_of_next _ _ h1 | exact h1,
          by first | exact onlyNext_of_next _ _ h2 | exact h2,
          by first | exact onlyNext_of_next _ _ h3 | exact h3⟩
  | initiate g => exact ⟨h1, h2, h3⟩
  | settle g r => exact ⟨h1, h2, h3⟩
  | reject g => exact ⟨h1, h2, h3⟩
  | log v => exact ⟨h1, h2, h3⟩

theorem allNext_foldl (tr : List Event) (s : SharedStoreService)
    (h : s.allNext) : (tr.foldl SharedStoreService.applyEvent s).allNext := by
  induction tr generalizing s with
  | nil => exact h
  | cons e tr ih => exact ih _ (allNext_applyEvent s e h)

theorem allNext_runLoads (envs : List Env) (s : SharedStoreService)
    (h : s.allNext) : (s.runLoads envs).allNext := by
  induction envs generalizing s with
  | nil => exact h
  | cons env rest ih =>
      exact ih _ (allNext_foldl (loadTrace env) s h)

/-! ### Environment-level helper lemmas -/

theorem envPublish_of_settled (env : Env) (f : Fetch) (r : APIResponse)
    (ho : env.outcomeOf f = Outcome.fulfilled r)
    (hp : f = Fetch.packages ∨ env.packagesRes.isFulfilled = true) :
    envPublish env f = if r.code = 200 then some r.message else none := by
  obtain ⟨po, dbo, uo, first⟩ := env
  cases f with
  | packages =>
      simp only [Env.outcomeOf] at ho
      simp [envPublish, ho, Outcome.successValue]
  | dbInfo =>
      simp only [Env.outcomeOf] at ho
      rcases hp with hp | hp
      · exact absurd hp (by simp)
      · cases po with
        | fulfilled q => simp [envPublish, ho, Outcome.successValue]
        | rejected => simp [Outcome.isFulfilled] at hp
        | pending => simp [Outcome.isFulfilled] at hp
  | upgradable =>
      simp only [Env.outcomeOf] at ho
      rcases hp with hp | hp
      · exact absurd hp (by simp)
      · cases po with
        | fulfilled q => simp [envPublish, ho, Outcome.successValue]
        | rejected => simp [Outcome.isFulfilled] at hp
        | pending => simp [Outcome.isFulfilled] at hp

theorem envPublish_none_of_failed (env : Env) (f : Fetch) (r : APIResponse)
    (ho : env.outcomeOf f = Outcome.fulfilled r) (hc : ¬ r.code = 200) :
    envPublish env f = none := by
  obtain ⟨po, dbo, uo, first⟩ := env
  cases f with
  | packages =>
      simp only [Env.outcomeOf] at ho
      simp [envPublish, ho, Outcome.successValue, hc]
  | dbInfo =>
      simp only [Env.outcomeOf] at ho
      cases po <;> simp [envPublish, ho, Outcome.successValue, hc]
  | upgradable =>
      simp only [Env.outcomeOf] at ho
      cases po <;> simp [envPublish, ho, Outcome.successValue, hc]

/-- An environment in which none of the three fetches fulfills with
status code 200: every fetch either rejects, hangs, or fulfills with a
failure code. -/
def Env.noSuccess (env : Env) : Prop :=
  env.packagesRes.successValue = none
    ∧ env.dbInfoRes.successValue = none
    ∧ env.upgradableRes.successValue = none

instance (env : Env) : Decidable env.noSuccess := by
  unfold Env.noSuccess
  infer_instance

theorem envPublish_none_of_noSuccess (env : Env) (h : env.noSuccess) (f : Fetch) :
    envPublish env f = none := by
  obtain ⟨po, dbo, uo, first⟩ := env
  obtain ⟨h1, h2, h3⟩ := h
  cases f with
  | packages => exact h1
  | dbInfo => cases po <;> simp [envPublish] <;> exact h2
  | upgradable => cases po <;> simp [envPublish] <;> exact h3

theorem chanValue_runLoads_noSuccess (envs : List Env) (s : SharedStoreService)
    (h : ∀ env ∈ envs, env.noSuccess) (f : Fetch) :
    (s.runLoads envs).chanValue f = s.chanValue f := by
  induction envs generalizing s with
  | nil => rfl
  | cons env rest ih =>
      rw [SharedStoreService.runLoads, ih _ fun e he => h e (List.mem_cons_of_mem env he),
        chanValue_load, envPublish_none_of_noSuccess env (h env (List.mem_cons_self env rest)) f]
      rfl

/-! ### Concrete inputs used by counterexamples and witnesses -/

/-- A concrete database-info payload. -/
def dbInfoPayload : DatabaseInfo := ⟨some ("2024-01-01"), some 3, some 10⟩

/-- A concrete upgradable payload. -/
def upgPayload : UpgradableDetails := ⟨true, false, []⟩

/-- An environment in which the packages fetch rejects (transport
failure) while both nested fetches would fulfill with code 200. -/
def envPkgsDown : Env :=
  ⟨Outcome.rejected,
   Outcome.fulfilled ⟨200, Value.dbInfo dbInfoPayload⟩,
   Outcome.fulfilled ⟨200, Value.upgradable upgPayload⟩,
   true⟩

/-- An environment in which all three fetches fulfill with code 200. -/
def envAllOk : Env :=
  ⟨Outcome.fulfilled ⟨200, Value.packages []⟩,
   Outcome.fulfilled ⟨200, Value.dbInfo dbInfoPayload⟩,
   Outcome.fulfilled ⟨200, Value.upgradable upgPayload⟩,
   true⟩

/-- An environment in which the packages fetch fulfills with code 200,
the database-info fetch fulfills with code 500, and the upgradable fetch
rejects. -/
def env500 : Env :=
  ⟨Outcome.fulfilled ⟨200, Value.packages []⟩,
   Outcome.fulfilled ⟨500, Value.str ("server error")⟩,
   Outcome.rejected,
   true⟩

/-- An environment in which no fetch fulfills with code 200: packages
fails with 500, database-info rejects, upgradable never settles. -/
def envFailW : Env :=
  ⟨Outcome.fulfilled ⟨500, Value.str ("server error")⟩,
   Outcome.rejected,
   Outcome.pending,
   false⟩

/-! ### Claims -/

/-- C1, counterexample: the claim says `load()` returns an operation
that resolves once the refresh sequence has finished attempting all
three fetches, regardless of their individual success or failure.  In
the environment where the packages fetch rejects, the refresh sequence
attempts only the packages fetch: the database-info and upgradable
fetches are never initiated. -/
theorem load_skips_nested_fetches_on_packages_rejection :
    initiatedFetches (loadTrace envPkgsDown) = [Fetch.packages]
      ∧ Fetch.dbInfo ∉ initiatedFetches (loadTrace envPkgsDown)
      ∧ Fetch.upgradable ∉ initiatedFetches (loadTrace envPkgsDown) := by
  decide

/-- C1, amended: `load()` returns `void`, not an asynchronous operation;
the refresh it starts in the background attempts all three fetches
exactly when the packages fetch fulfills, and attempts only the packages
fetch when that fetch rejects or never settles. -/
theorem load_attempts_all_three_iff_packages_fulfills (env : Env) :
    initiatedFetches (loadTrace env)
      = if env.packagesRes.isFulfilled then
          [Fetch.packages, Fetch.dbInfo, Fetch.upgradable]
        else
          [Fetch.packages] :=
  initiatedFetches_loadTrace env

/-- C2: the startup hook produced by `init_shared_store` invokes the
member `get_packages` on the injected `SharedStoreService`, but the
service declares no such method or property — its refresh method is
`load` (which moreover returns `void`, not a promise).  The claim that
the hook calls `load()` and returns its asynchronous operation does not
match the code. -/
theorem init_shared_store_member_mismatch :
    init_shared_store_calledMember ∉ SharedStoreService.methodNames
      ∧ init_shared_store_calledMember ∉ SharedStoreService.propertyNames
      ∧ ("load") ∈ SharedStoreService.methodNames := by
  decide

/-- C3, counterexample: with the packages fetch rejecting and both
nested fetches set to fulfill with code 200, neither nested channel is
published within that `load()` call — a transport failure of one fetch
does prevent publication of the other two. -/
theorem packages_transport_failure_blocks_other_publishes :
    envPkgsDown.dbInfoRes.successValue = some (Value.dbInfo dbInfoPayload)
      ∧ envPkgsDown.upgradableRes.successValue = some (Value.upgradable upgPayload)
      ∧ (SharedStoreService.construct.load envPkgsDown).1.chanValue Fetch.dbInfo
          = SharedStoreService.construct.chanValue Fetch.dbInfo
      ∧ (SharedStoreService.construct.load envPkgsDown).1.chanValue Fetch.upgradable
          = SharedStoreService.construct.chanValue Fetch.upgradable
      ∧ Event.publish Fetch.dbInfo (Value.dbInfo dbInfoPayload)
          ∉ (SharedStoreService.construct.load envPkgsDown).2
      ∧ Event.publish Fetch.upgradable (Value.upgradable upgPayload)
          ∉ (SharedStoreService.construct.load envPkgsDown).2 := by
  decide

/-- C3, amended: provided the packages fetch fulfills (with any status
code), a failure of any one fetch never prevents the publication of the
other channels: each channel whose own fetch fulfills with code 200 is
published within that `load()` call, regardless of the other two
outcomes.  When the packages fetch rejects, however, the two nested
fetches are never even initiated. -/
theorem load_publishes_independent_given_packages_fulfilled (env : Env) (q : APIResponse)
    (hq : env.packagesRes = Outcome.fulfilled q) :
    (q.code = 200 → Event.publish Fetch.packages q.message ∈ loadTrace env)
      ∧ (∀ r, env.dbInfoRes = Outcome.fulfilled r → r.code = 200 →
          Event.publish Fetch.dbInfo r.message ∈ loadTrace env)
      ∧ (∀ r, env.upgradableRes = Outcome.fulfilled r → r.code = 200 →
          Event.publish Fetch.upgradable r.message ∈ loadTrace env) := by
  refine ⟨fun hc => ?_, fun r hr hc => ?_, fun r hr hc => ?_⟩
  · rw [publish_mem_loadTrace]
    simp [envPublish, hq, Outcome.successValue, hc]
  · rw [publish_mem_loadTrace]
    simp [envPublish, hq, hr, Outcome.successValue, hc]
  · rw [publish_mem_loadTrace]
    simp [envPublish, hq, hr, Outcome.successValue, hc]

/-- Witness for the amended C3 at a concrete all-success environment. -/
theorem load_publishes_independent_witness :
    Event.publish Fetch.packages (Value.packages []) ∈ loadTrace envAllOk
      ∧ Event.publish Fetch.dbInfo (Value.dbInfo dbInfoPayload) ∈ loadTrace envAllOk
      ∧ Event.publish Fetch.upgradable (Value.upgradable upgPayload) ∈ loadTrace envAllOk := by
  have h := load_publishes_independent_given_packages_fulfilled envAllOk
    ⟨200, Value.packages []⟩ rfl
  exact ⟨h.1 rfl, h.2.1 ⟨200, Value.dbInfo dbInfoPayload⟩ rfl rfl,
    h.2.2 ⟨200, Value.upgradable upgPayload⟩ rfl rfl⟩

/-- C4: a fetch that settles with a non-200 code leaves its channel
exactly as it was before the `load()` call, and nothing at all is
published to that channel during the call. -/
theorem failed_fetch_leaves_channel_unchanged (s : SharedStoreService) (env : Env)
    (f : Fetch) (r : APIResponse)
    (ho : env.outcomeOf f = Outcome.fulfilled r) (hc : ¬ r.code = 200) :
    (s.load env).1.chanValue f = s.chanValue f
      ∧ ∀ v, Event.publish f v ∉ (s.load env).2 := by
  have hn := envPublish_none_of_failed env f r ho hc
  constructor
  · rw [chanValue_load, hn]
    rfl
  · intro v hv
    rw [show (s.load env).2 = loadTrace env from rfl, publish_mem_loadTrace, hn] at hv
    simp at hv

/-- Witness for C4: the database-info fetch fails with code 500 and its
channel keeps its prior (default) value. -/
theorem failed_fetch_leaves_channel_unchanged_witness :
    (SharedStoreService.construct.load env500).1.chanValue Fetch.dbInfo
        = SharedStoreService.construct.chanValue Fetch.dbInfo
      ∧ Event.publish Fetch.dbInfo (Value.str ("server error"))
          ∉ (SharedStoreService.construct.load env500).2 := by
  have h := failed_fetch_leaves_channel_unchanged SharedStoreService.construct env500
    Fetch.dbInfo ⟨500, Value.str ("server error")⟩ rfl (by decide)
  exact ⟨h.1, h.2 _⟩

/-- C5: for every fetch that actually settles with a response within a
`load()` call, its payload is published to its channel exactly when the
status code is 200; on any other code the message is logged and nothing
is published to that channel. -/
theorem publish_iff_status_200 (env : Env) (f : Fetch) (r : APIResponse)
    (hs : Event.settle f r ∈ loadTrace env) :
    (Event.publish f r.message ∈ loadTrace env ↔ r.code = 200)
      ∧ (¬ r.code = 200 →
          Event.log r.message ∈ loadTrace env
            ∧ ∀ v, Event.publish f v ∉ loadTrace env) := by
  rcases (settle_mem_loadTrace env f r).1 hs with ⟨ho, hp⟩
  have he := envPublish_of_settled env f r ho hp
  constructor
  · rw [publish_mem_loadTrace, he]
    by_cases hc : r.code = 200 <;> simp [hc]
  · intro hc
    refine ⟨log_mem_loadTrace_of_failure env f r hs hc, fun v hv => ?_⟩
    rw [publish_mem_loadTrace, he] at hv
    simp [hc] at hv

/-- Witness for C5: the packages fetch of the all-success environment
settles with code 200 and its payload is published. -/
theorem publish_iff_status_200_witness :
    (Event.publish Fetch.packages (Value.packages []) ∈ loadTrace envAllOk
        ↔ (200 : Int) = 200)
      ∧ Event.publish Fetch.packages (Value.packages []) ∈ loadTrace envAllOk := by
  have h := publish_iff_status_200 envAllOk Fetch.packages ⟨200, Value.packages []⟩ (by decide)
  exact ⟨h.1, h.1.2 rfl⟩

/-- C6: subscribing to any of the store's three channels immediately
delivers the channel's most recently published value (or the channel's
default when nothing was ever published), even when the subscription
happens after the publishes; and a subsequent publish is delivered to
every current subscriber. -/
theorem channel_replays_latest_and_notifies (f : Fetch) (pubs : List Value) (w : Value) :
    ((pubs.foldl BehaviorSubject.next (SharedStoreService.construct.chanSubj f)).subscribe.subscribers.getLast?
        = some ⟨[Notification.next (pubs.getLastD (SharedStoreService.construct.chanValue f))]⟩)
      ∧ ∀ sub ∈ ((pubs.foldl BehaviorSubject.next (SharedStoreService.construct.chanSubj f)).subscribe.next w).subscribers,
          sub.received.getLast? = some (Notification.next w) := by
  constructor
  · rw [subscribe_getLast, value_foldl_next]
    rfl
  · exact next_notifies_all _ w

/-- Witness for C6: after two publishes to the packages channel, a late
subscriber immediately receives the second one, and a further publish is
delivered to it. -/
theorem channel_replays_latest_and_notifies_witness :
    (([Value.str ("a"), Value.str ("b")].foldl BehaviorSubject.next
          (SharedStoreService.construct.chanSubj Fetch.packages)).subscribe.subscribers.getLast?
        = some ⟨[Notification.next (Value.str ("b"))]⟩)
      ∧ (Subscriber.mk [Notification.next (Value.str ("b")), Notification.next (Value.str ("c"))]).received.getLast?
          = some (Notification.next (Value.str ("c"))) := by
  have h := channel_replays_latest_and_notifies Fetch.packages
    [Value.str ("a"), Value.str ("b")] (Value.str ("c"))
  exact ⟨h.1, h.2 _ (by decide)⟩

/-- C7: starting from construction, as long as no fetch of any `load()`
call has fulfilled with code 200, the three channels hold their default
values: the empty package sequence, the empty database-info record, and
the upgradable record with both booleans false and an empty sequence. -/
theorem channels_hold_defaults_before_success (envs : List Env)
    (h : ∀ env ∈ envs, env.noSuccess) :
    (SharedStoreService.construct.runLoads envs).chanValue Fetch.packages
        = Value.packages []
      ∧ (SharedStoreService.construct.runLoads envs).chanValue Fetch.dbInfo
          = Value.dbInfo {}
      ∧ (SharedStoreService.construct.runLoads envs).chanValue Fetch.upgradable
          = Value.upgradable ⟨false, false, []⟩ := by
  refine ⟨?_, ?_, ?_⟩ <;> rw [chanValue_runLoads_noSuccess envs _ h] <;> rfl

/-- Witness for C7: one wholly unsuccessful load leaves all three
defaults in place (and with the empty list of loads this is the state at
construction itself). -/
theorem channels_hold_defaults_before_success_witness :
    (∀ env ∈ [envFailW], env.noSuccess)
      ∧ (SharedStoreService.construct.runLoads [envFailW]).chanValue Fetch.packages
          = Value.packages []
      ∧ (SharedStoreService.construct.runLoads [envFailW]).chanValue Fetch.dbInfo
          = Value.dbInfo {}
      ∧ (SharedStoreService.construct.runLoads [envFailW]).chanValue Fetch.upgradable
          = Value.upgradable ⟨false, false, []⟩ := by
  have h := channels_hold_defaults_before_success [envFailW] (by decide)
  exact ⟨by decide, h.1, h.2.1, h.2.2⟩

instance (sub : Subscriber Value) : Decidable sub.onlyNext := by
  unfold Subscriber.onlyNext
  infer_instance

instance (s : SharedStoreService) : Decidable s.allNext := by
  unfold SharedStoreService.allNext
  infer_instance

/-- A store state in which one subscriber is attached to the packages
channel right after construction. -/
def storeWithSubscriber : SharedStoreService :=
  { SharedStoreService.construct with
      packagesSubj := SharedStoreService.construct.packagesSubj.subscribe }

/-- C9: across any sequence of `load()` calls under any fetch outcomes,
every subscriber of every channel only ever receives `next`
notifications — no channel ever errors and none ever completes; fetch
failures are logged inside `load()` and never reach a subscriber. -/
theorem channels_never_error_nor_complete (s : SharedStoreService) (envs : List Env)
    (h : s.allNext) : (s.runLoads envs).allNext :=
  allNext_runLoads envs s h

/-- Witness for C9: a store with one subscriber, after a successful load
followed by one with a packages transport failure, still has delivered
only `next` notifications. -/
theorem channels_never_error_nor_complete_witness :
    storeWithSubscriber.allNext
      ∧ (storeWithSubscriber.runLoads [envAllOk, envPkgsDown]).allNext :=
  ⟨by decide, channels_never_error_nor_complete storeWithSubscriber
    [envAllOk, envPkgsDown] (by decide)⟩

/-- An environment in which the packages fetch never settles while both
nested fetches would fulfill with code 200. -/
def envPkgsHang : Env :=
  ⟨Outcome.pending,
   Outcome.fulfilled ⟨200, Value.dbInfo dbInfoPayload⟩,
   Outcome.fulfilled ⟨200, Value.upgradable upgPayload⟩,
   true⟩

/-- C8, counterexample: the claim asserts that within one `load()`
invocation the three fetch operations are initiated (in the fixed order
packages, database-info, upgradable).  In the environment where the
packages fetch never settles, the refresh initiates only the packages
fetch: the database-info and upgradable fetches are never initiated at
all, so not all three fetches are initiated in every `load()` call. -/
theorem load_pending_packages_initiates_only_packages :
    initiatedFetches (loadTrace envPkgsHang) = [Fetch.packages]
      ∧ Fetch.dbInfo ∉ initiatedFetches (loadTrace envPkgsHang)
      ∧ Fetch.upgradable ∉ initiatedFetches (loadTrace envPkgsHang) := by
  decide

/-- C8, amended: within one `load()` call the fetches that are
initiated always follow the fixed order packages, database-info,
upgradable; all three are initiated whenever the packages fetch
fulfills (otherwise only the packages fetch is initiated, per the
counterexample); and each successful publish is placed immediately
after its own fetch's settle event — a channel publishes as soon as its
own fetch settles with code 200, without waiting for the other
fetches. -/
theorem fetch_order_and_independent_publish (env : Env) :
    List.Sublist (initiatedFetches (loadTrace env))
        [Fetch.packages, Fetch.dbInfo, Fetch.upgradable]
      ∧ (∀ q, env.packagesRes = Outcome.fulfilled q →
          initiatedFetches (loadTrace env)
            = [Fetch.packages, Fetch.dbInfo, Fetch.upgradable])
      ∧ (∀ q, env.packagesRes = Outcome.fulfilled q → q.code = 200 →
          [Event.settle Fetch.packages q, Event.publish Fetch.packages q.message]
            <:+: loadTrace env)
      ∧ (∀ q r, env.packagesRes = Outcome.fulfilled q →
          env.dbInfoRes = Outcome.fulfilled r → r.code = 200 →
          [Event.settle Fetch.dbInfo r, Event.publish Fetch.dbInfo r.message]
            <:+: loadTrace env)
      ∧ (∀ q r, env.packagesRes = Outcome.fulfilled q →
          env.upgradableRes = Outcome.fulfilled r → r.code = 200 →
          [Event.settle Fetch.upgradable r, Event.publish Fetch.upgradable r.message]
            <:+: loadTrace env) := by
  refine ⟨?_, fun q hq => ?_, fun q hq hc => ?_, fun q r hq hr hc => ?_,
    fun q r hq hr hc => ?_⟩
  · rw [initiatedFetches_loadTrace]
    split
    · exact List.Sublist.refl _
    · exact List.Sublist.cons₂ _ (List.nil_sublist _)
  · rw [initiatedFetches_loadTrace, hq]
    simp [Outcome.isFulfilled]
  · exact ⟨[Event.log (Value.str ("Getting packages for data store")),
        Event.initiate Fetch.packages],
      Event.log (Value.str ("Retrieved packages")) :: Event.initiate Fetch.dbInfo ::
        Event.initiate Fetch.upgradable ::
        (if env.dbInfoFirst then
          settledEvents Fetch.dbInfo env.dbInfoRes
            ++ settledEvents Fetch.upgradable env.upgradableRes
         else
          settledEvents Fetch.upgradable env.upgradableRes
            ++ settledEvents Fetch.dbInfo env.dbInfoRes),
      by simp [loadTrace, hq, hc]⟩
  · cases hf : env.dbInfoFirst
    · exact ⟨Event.log (Value.str ("Getting packages for data store")) ::
          Event.initiate Fetch.packages :: Event.settle Fetch.packages q ::
          ((if q.code = 200 then
              [Event.publish Fetch.packages q.message,
               Event.log (Value.str ("Retrieved packages"))]
            else
              [Event.log q.message])
            ++ [Event.initiate Fetch.dbInfo, Event.initiate Fetch.upgradable])
          ++ settledEvents Fetch.upgradable env.upgradableRes,
        [],
        by simp [loadTrace, hq, hr, hf, settledEvents, fetchHandler, hc]⟩
    · exact ⟨Event.log (Value.str ("Getting packages for data store")) ::
          Event.initiate Fetch.packages :: Event.settle Fetch.packages q ::
          ((if q.code = 200 then
              [Event.publish Fetch.packages q.message,
               Event.log (Value.str ("Retrieved packages"))]
            else
              [Event.log q.message])
            ++ [Event.initiate Fetch.dbInfo, Event.initiate Fetch.upgradable]),
        settledEvents Fetch.upgradable env.upgradableRes,
        by simp [loadTrace, hq, hr, hf, settledEvents, fetchHandler, hc]⟩
  · cases hf : env.dbInfoFirst
    · exact ⟨Event.log (Value.str ("Getting packages for data store")) ::
          Event.initiate Fetch.packages :: Event.settle Fetch.packages q ::
          ((if q.code = 200 then
              [Event.publish Fetch.packages q.message,
               Event.log (Value.str ("Retrieved packages"))]
            else
              [Event.log q.message])
            ++ [Event.initiate Fetch.dbInfo, Event.initiate Fetch.upgradable]),
        settledEvents Fetch.dbInfo env.dbInfoRes,
        by simp [loadTrace, hq, hr, hf, settledEvents, fetchHandler, hc]⟩
    · exact ⟨Event.log (Value.str ("Getting packages for data store")) ::
          Event.initiate Fetch.packages :: Event.settle Fetch.packages q ::
          ((if q.code = 200 then
              [Event.publish Fetch.packages q.message,
               Event.log (Value.str ("Retrieved packages"))]
            else
              [Event.log q.message])
            ++ [Event.initiate Fetch.dbInfo, Event.initiate Fetch.upgradable])
          ++ settledEvents Fetch.dbInfo env.dbInfoRes,
        [],
        by simp [loadTrace, hq, hr, hf, settledEvents, fetchHandler, hc]⟩

/-- Witness for C8 at the all-success environment: every fetch is
initiated, in order, and the database-info settle/publish pair occurs
contiguously in the trace. -/
theorem fetch_order_and_independent_publish_witness :
    initiatedFetches (loadTrace envAllOk)
        = [Fetch.packages, Fetch.dbInfo, Fetch.upgradable]
      ∧ [Event.settle Fetch.packages ⟨200, Value.packages []⟩,
          Event.publish Fetch.packages (Value.packages [])] <:+: loadTrace envAllOk
      ∧ [Event.settle Fetch.dbInfo ⟨200, Value.dbInfo dbInfoPayload⟩,
          Event.publish Fetch.dbInfo (Value.dbInfo dbInfoPayload)] <:+: loadTrace envAllOk := by
  have h := fetch_order_and_independent_publish envAllOk
  exact ⟨h.2.1 _ rfl, h.2.2.1 _ rfl rfl,
    h.2.2.2.1 ⟨200, Value.packages []⟩ ⟨200, Value.dbInfo dbInfoPayload⟩ rfl rfl rfl⟩

theorem envPublish_nested_none_of_not_fulfilled (env : Env)
    (hnf : env.packagesRes.isFulfilled = false) :
    envPublish env Fetch.dbInfo = none ∧ envPublish env Fetch.upgradable = none := by
  obtain ⟨po, dbo, uo, first⟩ := env
  cases po with
  | fulfilled q => simp [Outcome.isFulfilled] at hnf
  | rejected => exact ⟨rfl, rfl⟩
  | pending => exact ⟨rfl, rfl⟩

/-- C10: the two nested fetches are initiated exactly when the packages
fetch fulfills; when it rejects or never settles, the database-info and
upgradable channels are untouched by that `load()` call; and every
packages publish of a `load()` call occurs before every database-info or
upgradable publish of that call. -/
theorem nested_fetches_gated_on_packages (env : Env) :
    ((Event.initiate Fetch.dbInfo ∈ loadTrace env
        ∨ Event.initiate Fetch.upgradable ∈ loadTrace env)
      ↔ env.packagesRes.isFulfilled = true)
      ∧ (env.packagesRes.isFulfilled = false →
          ∀ s : SharedStoreService,
            (s.load env).1.chanValue Fetch.dbInfo = s.chanValue Fetch.dbInfo
              ∧ (s.load env).1.chanValue Fetch.upgradable = s.chanValue Fetch.upgradable)
      ∧ (env.packagesRes.isFulfilled = false →
          ∀ v, Event.publish Fetch.dbInfo v ∉ loadTrace env
            ∧ Event.publish Fetch.upgradable v ∉ loadTrace env)
      ∧ ∃ l₁ l₂, loadTrace env = l₁ ++ l₂
          ∧ (∀ v, Event.publish Fetch.dbInfo v ∉ l₁
              ∧ Event.publish Fetch.upgradable v ∉ l₁)
          ∧ (∀ v, Event.publish Fetch.packages v ∉ l₂) := by
  refine ⟨?_, fun hnf s => ?_, fun hnf v => ?_, ?_⟩
  · obtain ⟨po, dbo, uo, first⟩ := env
    cases po <;> simp [loadTrace, Outcome.isFulfilled]
  · have hn := envPublish_nested_none_of_not_fulfilled env hnf
    constructor
    · rw [chanValue_load, hn.1]
      rfl
    · rw [chanValue_load, hn.2]
      rfl
  · have hn := envPublish_nested_none_of_not_fulfilled env hnf
    constructor
    · intro hv
      rw [publish_mem_loadTrace, hn.1] at hv
      simp at hv
    · intro hv
      rw [publish_mem_loadTrace, hn.2] at hv
      simp at hv
  · obtain ⟨po, dbo, uo, first⟩ := env
    cases po with
    | pending =>
        exact ⟨loadTrace ⟨Outcome.pending, dbo, uo, first⟩, [],
          by simp, fun v => ⟨by simp [loadTrace], by simp [loadTrace]⟩,
          fun v => by simp⟩
    | rejected =>
        exact ⟨loadTrace ⟨Outcome.rejected, dbo, uo, first⟩, [],
          by simp, fun v => ⟨by simp [loadTrace], by simp [loadTrace]⟩,
          fun v => by simp⟩
    | fulfilled q =>
        cases first
        · refine ⟨Event.log (Value.str ("Getting packages for data store")) ::
              Event.initiate Fetch.packages :: Event.settle Fetch.packages q ::
              ((if q.code = 200 then
                  [Event.publish Fetch.packages q.message,
                   Event.log (Value.str ("Retrieved packages"))]
                else
                  [Event.log q.message])
                ++ [Event.initiate Fetch.dbInfo, Event.initiate Fetch.upgradable]),
            settledEvents Fetch.upgradable uo ++ settledEvents Fetch.dbInfo dbo,
            by simp [loadTrace], fun v => ⟨?_, ?_⟩,
            fun v => by simp [publish_mem_settledEvents]⟩
          · by_cases hq200 : q.code = 200 <;> simp [hq200]
          · by_cases hq200 : q.code = 200 <;> simp [hq200]
        · refine ⟨Event.log (Value.str ("Getting packages for data store")) ::
              Event.initiate Fetch.packages :: Event.settle Fetch.packages q ::
              ((if q.code = 200 then
                  [Event.publish Fetch.packages q.message,
                   Event.log (Value.str ("Retrieved packages"))]
                else
                  [Event.log q.message])
                ++ [Event.initiate Fetch.dbInfo, Event.initiate Fetch.upgradable]),
            settledEvents Fetch.dbInfo dbo ++ settledEvents Fetch.upgradable uo,
            by simp [loadTrace], fun v => ⟨?_, ?_⟩,
            fun v => by simp [publish_mem_settledEvents]⟩
          · by_cases hq200 : q.code = 200 <;> simp [hq200]
          · by_cases hq200 : q.code = 200 <;> simp [hq200]

/-- Witness for C10: with the packages fetch rejected, the nested
channels keep their values and the database-info publish is absent. -/
theorem nested_fetches_gated_on_packages_witness :
    (SharedStoreService.construct.load envPkgsDown).1.chanValue Fetch.dbInfo
        = SharedStoreService.construct.chanValue Fetch.dbInfo
      ∧ Event.publish Fetch.dbInfo (Value.dbInfo dbInfoPayload) ∉ loadTrace envPkgsDown := by
  have h := nested_fetches_gated_on_packages envPkgsDown
  exact ⟨(h.2.1 rfl SharedStoreService.construct).1,
    (h.2.2.1 rfl (Value.dbInfo dbInfoPayload)).1⟩
